import Mathlib

/-!
Verification of the OpenAPI/Swagger-to-ontology converter.

Shallow embedding of the two serialization engines of the repository:

* `src/api_to_ttlfinal.py` — class `APIToTTL`, the compact-triple (Turtle)
  converter.  Its mutable converter object (`ttl_content`, `processed_refs`,
  `external_docs`, printed warnings) is threaded explicitly as a `ConvState`;
  per-run configuration and the external world (network fetches, file reads)
  are an `Env`.  Python `print` calls that report non-fatal problems are
  modelled as entries appended to `ConvState.warnings`; Python exceptions that
  escape a method are modelled with `Except`.
* `src/swaggertordfv2.py` — class `EnhancedSwaggerToRDFConverter`, the
  tagged-xml (RDF/XML) converter.  Only the parts the claims touch are
  embedded: `sanitize_for_uri`, `sanitize_text`, `_get_xsd_type`,
  `generate_rdf_header` (with the current date, read from `datetime.now()`
  in the source, passed as an explicit argument), and the response-class
  selection of `generate_response_classes`.

JSON values are modelled by the inductive `Json`; Python dicts preserve
insertion order, so objects are ordered association lists, and the iteration
order of `.items()` is the list order.
-/

/-- A JSON value, as read by `json.load`.  Python dicts preserve insertion
order, hence ordered association lists.  Numbers are not interpreted by any
code path the claims touch, so a decimal string payload suffices. -/
inductive Json where
  | null : Json
  | bool : Bool → Json
  | num : Int → Json
  | str : String → Json
  | arr : List Json → Json
  | obj : List (String × Json) → Json

/-- First binding of a key in an ordered association list (Python dict lookup;
keys in a parsed JSON document are unique, so first = only). -/
def assocFind {α : Type} (k : String) : List (String × α) → Option α
  | [] => none
  | (k', v) :: rest => if k = k' then some v else assocFind k rest

/-- `d.get(k)` on a Python dict; `none` when the value is not a dict or the
key is missing.  (Call sites that would raise on a non-dict are modelled
with `Except` at the call site.) -/
def Json.get : Json → String → Option Json
  | Json.obj kvs, k => assocFind k kvs
  | _, _ => none

/-- `k in d` for a Python dict (`False` on non-dict values never occurs at the
modelled call sites, where the value was already matched as a dict). -/
def Json.hasKey (j : Json) (k : String) : Bool :=
  (j.get k).isSome

/-- `d.get(k, default)` where the call site expects a string; a non-string
value at the key is not modelled (the claims never exercise one) and falls
back to the default. -/
def Json.getStrD (j : Json) (k : String) (dflt : String) : String :=
  match j.get k with
  | some (Json.str s) => s
  | _ => dflt

/-- The empty JSON object `{}`. -/
def Json.emptyObj : Json := Json.obj []

/-! ### Python string primitives, modelled over `List Char`

Every `str.replace` in the embedded code has a one-character pattern, so it
is a per-character substitution (`replaceSeq`) or, for an empty replacement,
a filter.  `str.split(c)` is `splitChar`.  Working on `List Char` keeps every
definition structurally recursive and kernel-computable. -/

/-- `s.replace(c, repl)` for a single-character pattern `c`. -/
def replaceSeq (target : Char) (repl : List Char) (l : List Char) : List Char :=
  l.flatMap (fun c => if c = target then repl else [c])

/-- `s.split(sep)` for a single-character separator, Python semantics:
`''.split('/') = ['']`, `'/a'.split('/') = ['', 'a']`. -/
def splitChar (sep : Char) : List Char → List (List Char)
  | [] => [[]]
  | c :: rest =>
    match splitChar sep rest with
    | [] => [[]]
    | g :: gs => if c = sep then [] :: g :: gs else (c :: g) :: gs

/-- `s.rstrip(chars)`: remove trailing characters drawn from `chars`. -/
def rstripSet (chars : List Char) (l : List Char) : List Char :=
  (l.reverse.dropWhile (fun c => chars.contains c)).reverse

/-- `s.rstrip(chars)` on strings. -/
def rstripStr (chars : List Char) (s : String) : String :=
  String.mk (rstripSet chars s.toList)

/-- Python whitespace, as stripped by `str.strip()`. -/
def isPySpace (c : Char) : Bool :=
  c = ' ' || c = '\t' || c = '\n' || c = '\r' || c = '\x0b' || c = '\x0c'

/-- `s.strip()`. -/
def stripStr (s : String) : String :=
  String.mk (((s.toList.dropWhile isPySpace).reverse.dropWhile isPySpace).reverse)

/-- Substring containment over character lists:
`containsSub needle haystack` is Python `needle in haystack`. -/
def containsSub (needle haystack : List Char) : Bool :=
  match haystack with
  | [] => needle.isEmpty
  | _ :: hs => List.isPrefixOf needle haystack || containsSub needle hs

/-- `'\u2026'.join(xs)` — Python `sep.join(list)`. -/
def joinWith (sep : String) : List String → String
  | [] => ""
  | x :: rest => rest.foldl (fun acc s => acc ++ sep ++ s) x

/-! ### `urllib.parse.quote` (as called by `_sanitize_name`)

`quote(s)` percent-encodes, with the default safe set: ASCII letters and
digits, `_.-~` and `/`.  Non-safe characters are encoded as the uppercase-hex
percent escapes of their UTF-8 bytes. -/

/-- Characters `quote` leaves untouched (default `safe='/'`). -/
def quoteSafe (c : Char) : Bool :=
  (('A' ≤ c && c ≤ 'Z') || ('a' ≤ c && c ≤ 'z') || ('0' ≤ c && c ≤ '9')
    || c = '_' || c = '.' || c = '-' || c = '~' || c = '/')

/-- UTF-8 bytes of a character. -/
def utf8Bytes (c : Char) : List Nat :=
  let n := c.toNat
  if n < 0x80 then [n]
  else if n < 0x800 then [0xC0 + n / 0x40, 0x80 + n % 0x40]
  else if n < 0x10000 then
    [0xE0 + n / 0x1000, 0x80 + (n / 0x40) % 0x40, 0x80 + n % 0x40]
  else
    [0xF0 + n / 0x40000, 0x80 + (n / 0x1000) % 0x40,
      0x80 + (n / 0x40) % 0x40, 0x80 + n % 0x40]

/-- Uppercase hexadecimal digit. -/
def hexDigitU (n : Nat) : Char :=
  if n < 10 then Char.ofNat (48 + n) else Char.ofNat (55 + n)

/-- `%XX` escape of one byte. -/
def pctEncode (b : Nat) : List Char :=
  ['%', hexDigitU (b / 16), hexDigitU (b % 16)]

/-- `urllib.parse.quote(s)` with the default safe set. -/
def pyQuote (s : String) : String :=
  String.mk (s.toList.flatMap
    (fun c => if quoteSafe c then [c] else (utf8Bytes c).flatMap pctEncode))

/-! ### `APIToTTL._sanitize_name` (src/api_to_ttlfinal.py lines 408-414)

```python
def _sanitize_name(self, name: str) -> str:
    if name is None:
        return ""
    name = name.replace(' ', '')
    return quote(name.replace('/', '_').replace('{', '').replace('}', ''))
```
-/

/-- `_sanitize_name` on a non-null string. -/
def sanitizeName (name : String) : String :=
  let noSpace := name.toList.filter (fun c => c ≠ ' ')
  let slashes := noSpace.map (fun c => if c = '/' then '_' else c)
  let noBraces := slashes.filter (fun c => c ≠ '\x7b' && c ≠ '\x7d')
  pyQuote (String.mk noBraces)

/-- `_sanitize_name` including the `None` guard (`None` maps to `""`). -/
def sanitizeNameOpt : Option String → String
  | none => ""
  | some s => sanitizeName s

/-! ### `APIToTTL._escape_string` (lines 450-454)

```python
return text.replace('\\', '\\\\').replace('"', '\\"').replace('\n', '\\n')
```
Sequential single-character replaces, in source order. -/

/-- `_escape_string` on a non-null string. -/
def escapeString (text : String) : String :=
  String.mk (replaceSeq '\n' ['\\', 'n']
    (replaceSeq '"' ['\\', '"']
      (replaceSeq '\\' ['\\', '\\'] text.toList)))

/-! ### `APIToTTL._map_type_to_xsd` (lines 416-448)

The two-level table, keyed by type then by format (`None` is a real key). -/

/-- The `type_mapping` table of `_map_type_to_xsd`, in source order. -/
def typeMapping : List (String × List (Option String × String)) :=
  [("string",
     [(none, "xsd:string"), (some "date", "xsd:date"),
      (some "date-time", "xsd:dateTime"), (some "byte", "xsd:base64Binary"),
      (some "binary", "xsd:base64Binary"), (some "password", "xsd:string"),
      (some "email", "xsd:string"), (some "uuid", "xsd:string"),
      (some "uri", "xsd:anyURI")]),
   ("integer",
     [(none, "xsd:integer"), (some "int32", "xsd:int"),
      (some "int64", "xsd:long")]),
   ("number",
     [(none, "xsd:decimal"), (some "float", "xsd:float"),
      (some "double", "xsd:double")]),
   ("boolean", [(none, "xsd:boolean")]),
   ("object", [(none, "xsd:anyType")])]

/-- Lookup in a format-to-datatype map (keys include Python `None`). -/
def assocFindO {α : Type} (k : Option String) : List (Option String × α) → Option α
  | [] => none
  | (k', v) :: rest => if k = k' then some v else assocFindO k rest

/-- `_map_type_to_xsd(swagger_type, format_)`:
`type_formats = type_mapping.get(swagger_type, {})`;
`return type_formats.get(format_, type_formats.get(None, 'xsd:string'))`. -/
def mapTypeToXsd (swaggerType : String) (format? : Option String) : String :=
  let typeFormats := (assocFind swaggerType typeMapping).getD []
  match assocFindO format? typeFormats with
  | some r => r
  | none =>
    match assocFindO none typeFormats with
    | some r => r
    | none => "xsd:string"

/-! ### `EnhancedSwaggerToRDFConverter.sanitize_for_uri`
(src/swaggertordfv2.py lines 276-291)

```python
if not text:
    return "unnamed"
sanitized = re.sub(r'[^a-zA-Z0-9\-_]', '',
                   str(text).replace(' ', '-').replace('/', '-').lower())
sanitized = re.sub(r'-+', '-', sanitized)
sanitized = sanitized.strip('-')
if not sanitized:
    return "unnamed"
return sanitized
```
`str.lower()` is modelled as ASCII lowercasing (the non-ASCII cased
characters Python would additionally lowercase are all removed by the
character filter in the same step, except for exotic compatibility
characters the claims never exercise). -/

/-- ASCII lowercasing of one character (model of `str.lower()`). -/
def asciiLower (c : Char) : Char :=
  if 65 ≤ c.toNat && c.toNat ≤ 90 then Char.ofNat (c.toNat + 32) else c

/-- Characters kept by `re.sub(r'[^a-zA-Z0-9\-_]', '', _)`. -/
def keepChar (c : Char) : Bool :=
  (('A' ≤ c && c ≤ 'Z') || ('a' ≤ c && c ≤ 'z') || ('0' ≤ c && c ≤ '9')
    || c = '-' || c = '_')

/-- `re.sub(r'-+', '-', _)`: collapse each run of hyphens to one. -/
def collapseRuns : List Char → List Char
  | [] => []
  | [c] => [c]
  | a :: b :: rest =>
    if a = '-' && b = '-' then collapseRuns (b :: rest)
    else a :: collapseRuns (b :: rest)

/-- `s.strip('-')`. -/
def stripHyphens (l : List Char) : List Char :=
  ((l.dropWhile (fun c => c = '-')).reverse.dropWhile (fun c => c = '-')).reverse

/-- The character pipeline of `sanitize_for_uri` before the final emptiness
check: replace `' '` and `'/'` by `'-'`, lowercase, drop characters outside
`[a-zA-Z0-9\-_]`, collapse hyphen runs, strip outer hyphens. -/
def sanitizeForUriList (l : List Char) : List Char :=
  stripHyphens (collapseRuns
    (((replaceSeq '/' ['-'] (replaceSeq ' ' ['-'] l)).map asciiLower).filter keepChar))

/-- `sanitize_for_uri`. -/
def sanitizeForUri (text : String) : String :=
  if text = "" then "unnamed"
  else
    let s := sanitizeForUriList text.toList
    if s = [] then "unnamed" else String.mk s

/-! ### `EnhancedSwaggerToRDFConverter.sanitize_text` (lines 293-299)

`html.escape(text)` with its default `quote=True`: sequential replaces
`& → &amp;`, `< → &lt;`, `> → &gt;`, `" → &quot;`, `' → &#x27;`,
in that order. -/

/-- `html.escape` with `quote=True`. -/
def htmlEscape (s : String) : String :=
  String.mk (replaceSeq '\'' "&#x27;".toList
    (replaceSeq '"' "&quot;".toList
      (replaceSeq '>' "&gt;".toList
        (replaceSeq '<' "&lt;".toList
          (replaceSeq '&' "&amp;".toList s.toList)))))

/-- `sanitize_text` on a non-null string input. -/
def sanitizeText (text : String) : String :=
  htmlEscape text

/-! ### `EnhancedSwaggerToRDFConverter._get_xsd_type` (lines 1527-1561)

Format is consulted before type; the result is the local XSD name, without
the `xsd:` prefix (the caller pastes it into `&xsd;NAME`). -/

/-- The `type_map` of `_get_xsd_type`. -/
def v2TypeMap : List (String × String) :=
  [("string", "string"), ("integer", "integer"),
   ("number", "decimal"), ("boolean", "boolean")]

/-- The `format_map` of `_get_xsd_type`. -/
def v2FormatMap : List (String × String) :=
  [("date", "date"), ("date-time", "dateTime"), ("uri", "anyURI"),
   ("email", "string"), ("uuid", "string"), ("int32", "integer"),
   ("int64", "integer"), ("float", "decimal"), ("double", "decimal")]

/-- `_get_xsd_type(prop_def)`. -/
def getXsdType (propDef : Json) : String :=
  let propType :=
    match propDef.get "type" with
    | some (Json.str s) => some s
    | _ => none
  let propFormat :=
    match propDef.get "format" with
    | some (Json.str s) => some s
    | _ => none
  match propFormat with
  | some f =>
    match assocFind f v2FormatMap with
    | some r => r
    | none =>
      match propType with
      | some t => (assocFind t v2TypeMap).getD "string"
      | none => "string"
  | none =>
    match propType with
    | some t => (assocFind t v2TypeMap).getD "string"
    | none => "string"

/-! ### The compact-triple converter's data model

The `APIToTTL` object of src/api_to_ttlfinal.py is threaded explicitly.
Besides the faithful `ttl_content` lines, every `_add_class` /
`_add_object_property` / `_add_data_property` call is additionally recorded
as a `Node` (the sanitized identifier and the call's arguments).  The node
list is instrumentation only: it is written by exactly the same calls, in
the same order, with the same sanitized identifiers that the TTL lines use,
and it is what the spec's ClassNode / PropertyNode claims quantify over. -/

/-- A recorded graph node (identifiers already sanitized). -/
inductive Node where
  | classNode (ident label : String) (supers : List String) (comment : Option String)
  | objectProp (ident domain range : String) (required collection : Bool)
  | dataProp (ident domain range : String) (required collection : Bool)
      (value : Option String)
deriving DecidableEq, Repr

/-- The identifier of a node. -/
def Node.ident : Node → String
  | .classNode i _ _ _ => i
  | .objectProp i _ _ _ _ => i
  | .dataProp i _ _ _ _ _ => i

/-- Mutable converter state: `ttl_content`, `processed_refs` (a set used only
through membership, modelled as a duplicate-free-by-use list),
`external_docs`, warnings printed so far, and the instrumented node list. -/
structure ConvState where
  ttl : List String := []
  processedRefs : List String := []
  externalDocs : List (String × Json) := []
  warnings : List String := []
  nodes : List Node := []

/-- The fresh state of a newly constructed converter. -/
def initState : ConvState := {}

/-- Record one printed warning/error line. -/
def pushWarning (st : ConvState) (w : String) : ConvState :=
  { st with warnings := st.warnings ++ [w] }

/-- Per-conversion configuration and external world: `base_uri` and
`max_recursion_depth` from the constructor, `current_file`, the root
document (`self.swagger_doc`), and oracles giving the outcome of
`requests.get(url).json()` and of `open(path); json.load` — an `.error`
models the exception the corresponding Python call would raise. -/
structure Env where
  baseUri : String := "http://example.org/api"
  maxDepth : Nat := 10
  currentFile : Option String := none
  fetch : String → Except String Json := fun _ => Except.error "unreachable"
  fileRead : String → Except String Json := fun _ => Except.error "unreadable"
  swaggerDoc : Json := Json.emptyObj

/-- `self.service_url = base_uri.rstrip('/')`. -/
def serviceUrl (env : Env) : String := rstripStr ['/'] env.baseUri

/-- `lines[-1] = f(lines[-1])` (no-op on an empty list, which never occurs). -/
def updateLast (f : String → String) : List String → List String
  | [] => []
  | [x] => [f x]
  | x :: rest => x :: updateLast f rest

/-! ### `_add_class` (lines 316-335) -/

/-- `_add_class(class_name, description, super_classes)`.  Python's falsy
checks make `description=''` behave like the `None` default and
`super_classes=[]` like `None`, so a plain string / list suffice.  Note that
the label and the comment embed `class_name` / `description` raw, without
`_escape_string`. -/
def addClass (st : ConvState) (className description : String)
    (superClasses : List String) : ConvState :=
  let classId := sanitizeName className
  let lines := ["api:" ++ classId ++ " a owl:Class ;"]
  let lines := lines ++ superClasses.map
    (fun sc => "    rdfs:subClassOf api:" ++ sanitizeName sc ++ " ;")
  let lines := lines ++ ["    rdfs:label \"" ++ className ++ "\"@en ;"]
  let lines := if description ≠ "" then
      lines ++ ["    rdfs:comment \"\"\"" ++ description ++ "\"\"\"@en ;"]
    else lines
  let lines := updateLast (fun s => rstripStr [' ', ';'] s ++ " .") lines
  let lines := lines ++ [""]
  { st with
    ttl := st.ttl ++ lines
    nodes := st.nodes ++ [Node.classNode classId className
      (superClasses.map sanitizeName)
      (if description ≠ "" then some description else none)] }

/-! ### `_add_object_property` (lines 337-369) -/

/-- `_add_object_property(prop_name, domain, range_class, description,
is_required, is_collection)`.  No call site in the source passes a
description, but the parameter is kept (`""` = Python `None`/`''`, both
falsy).  The comment, when present, is `_escape_string`-escaped. -/
def addObjectProperty (st : ConvState) (propName domain rangeClass : String)
    (description : String) (isRequired isCollection : Bool) : ConvState :=
  let propId := sanitizeName ("has_" ++ propName)
  let domainId := sanitizeName domain
  let rangeId := sanitizeName rangeClass
  let lines := ["api:" ++ propId ++ " a owl:ObjectProperty ;"]
  let lines := lines ++
    (if isCollection then
      ["    rdfs:domain api:" ++ domainId ++ " ;",
       "    rdfs:range api:Collection ;",
       "    api:collectionItemType api:" ++ rangeId]
    else
      ["    rdfs:domain api:" ++ domainId ++ " ;",
       "    rdfs:range api:" ++ rangeId])
  let lines := if description ≠ "" then
      updateLast (fun s => s ++ " ;") lines ++
        ["    rdfs:comment \"" ++ escapeString description ++ "\"^^xsd:string"]
    else lines
  let lines := if isRequired then
      updateLast (fun s => s ++ " ;") lines ++
        ["    owl:minCardinality \"1\"^^xsd:nonNegativeInteger"]
    else lines
  let lines := updateLast (fun s => s ++ " .") lines
  let lines := lines ++ [""]
  { st with
    ttl := st.ttl ++ lines
    nodes := st.nodes ++
      [Node.objectProp propId domainId rangeId isRequired isCollection] }

/-! ### `_add_data_property` (lines 371-406) -/

/-- `_add_data_property(prop_name, domain, range_type, description,
is_required, is_collection, value)`.  `value` is `Option String` because the
source distinguishes `value is not None` (an empty string still emits the
`rdf:value` line).  The comment and the value are `_escape_string`-escaped. -/
def addDataProperty (st : ConvState) (propName domain rangeType : String)
    (description : String) (isRequired isCollection : Bool)
    (value : Option String) : ConvState :=
  let propId := sanitizeName propName
  let domainId := sanitizeName domain
  let lines := ["api:" ++ propId ++ " a owl:DatatypeProperty ;"]
  let lines := lines ++
    (if isCollection then
      ["    rdfs:domain api:" ++ domainId ++ " ;",
       "    rdfs:range api:Collection ;",
       "    api:collectionItemType " ++ rangeType]
    else
      ["    rdfs:domain api:" ++ domainId ++ " ;",
       "    rdfs:range " ++ rangeType])
  let lines := if description ≠ "" then
      updateLast (fun s => s ++ " ;") lines ++
        ["    rdfs:comment \"" ++ escapeString description ++ "\"^^xsd:string"]
    else lines
  let lines := if isRequired then
      updateLast (fun s => s ++ " ;") lines ++
        ["    owl:minCardinality \"1\"^^xsd:nonNegativeInteger"]
    else lines
  let lines :=
    match value with
    | some v =>
      updateLast (fun s => s ++ " ;") lines ++
        ["    rdf:value \"" ++ escapeString v ++ "\"^^xsd:string"]
    | none => lines
  let lines := updateLast (fun s => s ++ " .") lines
  let lines := lines ++ [""]
  { st with
    ttl := st.ttl ++ lines
    nodes := st.nodes ++
      [Node.dataProp propId domainId rangeType isRequired isCollection value] }

/-! ### `_write_prefixes` (lines 26-29) and `_write_ontology_header`
(lines 31-41) -/

/-- The `self.prefixes` dict, in insertion order. -/
def namespaceTable (env : Env) : List (String × String) :=
  [("rdf", "http://www.w3.org/1999/02/22-rdf-syntax-ns#"),
   ("rdfs", "http://www.w3.org/2000/01/rdf-schema#"),
   ("owl", "http://www.w3.org/2002/07/owl#"),
   ("xsd", "http://www.w3.org/2001/XMLSchema#"),
   ("api", env.baseUri ++ "#"),
   ("service", serviceUrl env ++ "#")]

/-- `_write_prefixes`: one `@prefix` line per table entry, then a blank. -/
def writeNamespaceDecls (env : Env) (st : ConvState) : ConvState :=
  let lines := (namespaceTable env).map
    (fun pu => "@prefix " ++ pu.1 ++ ": <" ++ pu.2 ++ "> .")
  { st with ttl := st.ttl ++ lines ++ [""] }

/-- `_write_ontology_header`: title and description are
`_escape_string`-escaped. -/
def writeOntologyHeader (env : Env) (st : ConvState) : ConvState :=
  let info := (env.swaggerDoc.get "info").getD Json.emptyObj
  let title := info.getStrD "title" "API Ontology"
  let description := info.getStrD "description" ""
  { st with ttl := st.ttl ++
      ["<" ++ env.baseUri ++ "> a owl:Ontology ;",
       "    rdfs:label \"" ++ escapeString title ++ "\"^^xsd:string ;",
       "    rdfs:comment \"" ++ escapeString description ++ "\"^^xsd:string .",
       ""] }

/-! ### `_write_base_classes` (lines 43-55)

Writes raw stanzas (not via `_add_class`, hence no node is recorded);
`tag['name']` raises `KeyError` when absent, modelled as `.error`. -/

/-- `_write_base_classes`. -/
def writeBaseClasses (env : Env) (st : ConvState) : Except String ConvState :=
  let tags := match env.swaggerDoc.get "tags" with
    | some (Json.arr ts) => ts
    | _ => []
  tags.foldl
    (fun acc tag =>
      acc.bind fun st =>
        match tag.get "name" with
        | some (Json.str tagName) =>
          let className := sanitizeName tagName
          let description := tag.getStrD "description" ""
          Except.ok { st with ttl := st.ttl ++
            ["api:" ++ className ++ " a owl:Class ;",
             "    rdfs:label \"" ++ tagName ++ "\"@en ;",
             "    rdfs:comment \"\"\"" ++ description ++ "\"\"\"@en ;",
             "    .",
             ""] }
        | _ => Except.error "KeyError: 'name'")
    (Except.ok st)

/-! ### `_resolve_schema_ref` (lines 269-314) -/

/-- `ref.split('#')[0]`. -/
def hashBase (s : String) : String :=
  String.mk (s.toList.takeWhile (fun c => c ≠ '#'))

/-- `ref.split('#')[1] if '#' in ref else ''` (the piece between the first
and second `#`). -/
def hashPath (s : String) : String :=
  String.mk (((s.toList.dropWhile (fun c => c ≠ '#')).drop 1).takeWhile
    (fun c => c ≠ '#'))

/-- One step of the pointer walk `current_doc = current_doc.get(part, {})`:
on a non-dict value Python raises `AttributeError`. -/
def pointerWalk : Json → List String → Except String Json
  | doc, [] => Except.ok doc
  | doc, part :: rest =>
    if part = "" then pointerWalk doc rest
    else
      match doc with
      | Json.obj kvs =>
        pointerWalk ((assocFind part kvs).getD Json.emptyObj) rest
      | _ => Except.error "AttributeError: 'get' on non-dict value"

/-- The `if ref_path:` pointer-walk tail of `_resolve_schema_ref`. -/
def walkRefPath (doc : Json) (refPath : String) : Except String Json :=
  if refPath = "" then Except.ok doc
  else pointerWalk doc ((splitChar '/' refPath.toList).map String.mk)

/-- `urljoin(base_path + '/', rel)` for the scheme-less relative references
that reach this branch, simplified to: absolute paths replace, relative
paths append.  (Full RFC 3986 merging, e.g. `..` segments, is not modelled;
no claim depends on it.) -/
def urljoinApprox (base rel : String) : String :=
  if rel.toList.head? = some '/' then rel else base ++ rel

/-- `_resolve_schema_ref(ref)`.  `.error` models a Python exception escaping
the method (only the pointer walk can raise here); I/O and parse failures of
the fetch/read are soft: they print an error line and resolve to `{}`. -/
def resolveSchemaRef (env : Env) (st : ConvState) (ref : String) :
    Except String (Json × ConvState) :=
  if ref = "" then Except.ok (Json.emptyObj, st)
  else if ref.toList.head? ≠ some '#' then
    if containsSub "://".toList ref.toList then
      let baseUrl := hashBase ref
      let refPath := hashPath ref
      match assocFind baseUrl st.externalDocs with
      | some doc => (walkRefPath doc refPath).map (fun v => (v, st))
      | none =>
        match env.fetch baseUrl with
        | Except.ok doc =>
          let st := { st with externalDocs := st.externalDocs ++ [(baseUrl, doc)] }
          (walkRefPath doc refPath).map (fun v => (v, st))
        | Except.error e =>
          Except.ok (Json.emptyObj, pushWarning st
            ("Error fetching external reference " ++ baseUrl ++ ": " ++ e))
    else
      match env.currentFile with
      | some cf =>
        let basePath := joinWith "/" (((splitChar '/' cf.toList).dropLast).map String.mk)
        let fullPath := urljoinApprox (basePath ++ "/") (hashBase ref)
        let refPath := hashPath ref
        match assocFind fullPath st.externalDocs with
        | some doc => (walkRefPath doc refPath).map (fun v => (v, st))
        | none =>
          match env.fileRead fullPath with
          | Except.ok doc =>
            let st := { st with externalDocs := st.externalDocs ++ [(fullPath, doc)] }
            (walkRefPath doc refPath).map (fun v => (v, st))
          | Except.error e =>
            Except.ok (Json.emptyObj, pushWarning st
              ("Error reading external file " ++ fullPath ++ ": " ++ e))
      | none => Except.ok (Json.emptyObj, st)
  else
    walkRefPath env.swaggerDoc (String.mk (ref.toList.drop 1)) |>.map
      (fun v => (v, st))

/-! ### `json.dumps` (used only by `_process_examples`)

Default flags: `ensure_ascii=True` (`\uXXXX` escapes, astral-plane
surrogate pairs are not modelled), separators `', '` and `': '`. -/

/-- Lowercase hexadecimal digit. -/
def hexDigitL (n : Nat) : Char :=
  if n < 10 then Char.ofNat (48 + n) else Char.ofNat (87 + n)

/-- JSON string escaping of one character (`ensure_ascii=True`). -/
def jsonEscapeChar (c : Char) : List Char :=
  if c = '"' then ['\\', '"']
  else if c = '\\' then ['\\', '\\']
  else if c = '\n' then ['\\', 'n']
  else if c = '\t' then ['\\', 't']
  else if c = '\r' then ['\\', 'r']
  else if c.toNat < 32 || 126 < c.toNat then
    let n := c.toNat
    ['\\', 'u', hexDigitL (n / 4096 % 16), hexDigitL (n / 256 % 16),
      hexDigitL (n / 16 % 16), hexDigitL (n % 16)]
  else [c]

mutual

/-- `json.dumps(value)` (with `jsonDumpsList` / `jsonDumpsObj` rendering the
element lists). -/
def jsonDumps : Json → String
  | Json.null => "null"
  | Json.bool b => if b then "true" else "false"
  | Json.num n => toString n
  | Json.str s => "\"" ++ String.mk (s.toList.flatMap jsonEscapeChar) ++ "\""
  | Json.arr xs => "[" ++ joinWith ", " (jsonDumpsList xs) ++ "]"
  | Json.obj kvs => "\x7b" ++ joinWith ", " (jsonDumpsObj kvs) ++ "\x7d"

def jsonDumpsList : List Json → List String
  | [] => []
  | x :: rest => jsonDumps x :: jsonDumpsList rest

def jsonDumpsObj : List (String × Json) → List String
  | [] => []
  | (k, v) :: rest =>
    ("\"" ++ String.mk (k.toList.flatMap jsonEscapeChar) ++ "\": " ++ jsonDumps v)
      :: jsonDumpsObj rest

end

/-! ### `_process_schema_attributes` (lines 197-237) and
`_process_array_property` (lines 239-267)

The source recurses with `depth + 1` and returns early (printing a
depth-exceeded warning) once `depth >= self.max_recursion_depth`.  To keep
the definition structurally recursive (and hence kernel-computable), the
embedding additionally counts down an explicit `fuel` argument; the
top-level wrapper passes `fuel = maxDepth + 1`, which maintains the
invariant `maxDepth - depth < fuel`, so the `fuel = 0` branch is
unreachable: the depth guard always fires first.  `_process_array_property`
has a single call site and is inlined at it (marked below). -/

/-- The warning printed when the depth guard fires (line 200). -/
def depthWarning (className : String) : String :=
  "Warning: Maximum recursion depth reached for class " ++ className

/-- `ref_key = f"{ref}_{depth}"`. -/
def refKey (ref : String) (depth : Nat) : String :=
  ref ++ "_" ++ toString depth

/-- `schema.get('required', [])` (a non-list value, on which Python's `in`
would do substring/key tests, is not modelled and yields `[]`). -/
def requiredList (schema : Json) : List Json :=
  match schema.get "required" with
  | some (Json.arr xs) => xs
  | _ => []

/-- `prop_name in required_props` (string equality against list elements). -/
def containsStr (xs : List Json) (s : String) : Bool :=
  xs.any (fun j => match j with | Json.str t => t = s | _ => false)

/-- `d.get(k)` where the call site expects an optional string
(`prop_def.get('format')`); a non-string value behaves like an unknown
format, which coincides with the `None` fallback of the lookup. -/
def Json.getStrO (j : Json) (k : String) : Option String :=
  match j.get k with
  | some (Json.str s) => some s
  | _ => none

/-- `_process_schema_attributes(class_name, schema, depth)` with the array
branch of `_process_array_property` inlined at its call site (line 229).
Non-dict `prop_def` values and non-string `type`/`$ref`/`description`
payloads are not modelled (no claim exercises them). -/
def processSchemaAttributes (env : Env) :
    Nat → String → Json → Nat → ConvState → Except String ConvState
  | fuel, className, schema, depth, st =>
    if env.maxDepth ≤ depth then
      Except.ok (pushWarning st (depthWarning className))
    else
      match fuel with
      | 0 => Except.ok st  -- unreachable under the wrapper's fuel invariant
      | fuel + 1 =>
        match schema.get "properties" with
        | none => Except.ok st
        | some (Json.obj props) =>
          let req := requiredList schema
          props.foldl
            (fun acc pnpd =>
              acc.bind fun st =>
                let pn := pnpd.1
                let pd := pnpd.2
                let isReq := containsStr req pn
                match pd.get "$ref" with
                | some (Json.str ref) =>
                  -- `'$ref' in prop_def` branch (lines 209-221)
                  let key := refKey ref depth
                  if st.processedRefs.contains key then Except.ok st
                  else
                    let st := { st with processedRefs := st.processedRefs ++ [key] }
                    (resolveSchemaRef env st ref).bind fun vst =>
                      let refClass := className ++ "_" ++ pn
                      let st := addClass vst.2 refClass "" [className]
                      (processSchemaAttributes env fuel refClass vst.1 (depth + 1) st).bind
                        fun st =>
                          Except.ok (addObjectProperty st pn className refClass "" isReq false)
                | some _ => Except.error "TypeError: non-string $ref"
                | none =>
                  if pd.getStrD "type" "" = "object" then
                    -- `type == 'object'` branch (lines 222-227)
                    let nestedClass := className ++ "_" ++ pn
                    let st := addClass st nestedClass (pd.getStrD "description" "") [className]
                    (if pd.hasKey "properties" then
                        processSchemaAttributes env fuel nestedClass pd (depth + 1) st
                      else Except.ok st).bind fun st =>
                      Except.ok (addObjectProperty st pn className nestedClass "" isReq false)
                  else if pd.getStrD "type" "" = "array" then
                    -- `type == 'array'`: `_process_array_property` inlined,
                    -- called with the same depth (lines 239-267)
                    let items := (pd.get "items").getD Json.emptyObj
                    match items.get "$ref" with
                    | some (Json.str ref) =>
                      let key := refKey ref depth
                      if st.processedRefs.contains key then Except.ok st
                      else
                        let st := { st with processedRefs := st.processedRefs ++ [key] }
                        (resolveSchemaRef env st ref).bind fun vst =>
                          let refClass := className ++ "_" ++ pn ++ "_Item"
                          let st := addClass vst.2 refClass "" [className]
                          (processSchemaAttributes env fuel refClass vst.1 (depth + 1) st).bind
                            fun st =>
                              Except.ok (addObjectProperty st pn className refClass "" isReq true)
                    | some _ => Except.error "TypeError: non-string $ref"
                    | none =>
                      Except.ok (addDataProperty st pn className
                        (mapTypeToXsd (items.getStrD "type" "string") (items.getStrO "format"))
                        (pd.getStrD "description" "") isReq true none)
                  else
                    -- default: datatype property (lines 230-237)
                    Except.ok (addDataProperty st pn className
                      (mapTypeToXsd (pd.getStrD "type" "string") (pd.getStrO "format"))
                      (pd.getStrD "description" "") isReq false none))
            (Except.ok st)
        | some _ => Except.error "AttributeError: 'properties' is not a dict"

/-- Entry into `_process_schema_attributes` with the default `depth=0`; the
fuel `maxDepth + 1` keeps the `fuel = 0` branch unreachable (the depth guard
needs at most `maxDepth + 1` nested activations). -/
def processSchemaAttributesTop (env : Env) (st : ConvState)
    (className : String) (schema : Json) : Except String ConvState :=
  processSchemaAttributes env (env.maxDepth + 1) className schema 0 st

/-! ### `_process_examples` (lines 179-195) -/

/-- `_process_examples(parent_class, examples)`. -/
def processExamples (st : ConvState) (parentClass : String) (examples : Json) :
    Except String ConvState :=
  match examples with
  | Json.obj exs =>
    exs.foldl
      (fun acc nameEx =>
        acc.bind fun st =>
          match nameEx.2.get "name" with
          | _ =>
            let exampleClass := parentClass ++ "_Example_" ++ sanitizeName nameEx.1
            let st := addClass st exampleClass (nameEx.2.getStrD "description" "")
              [parentClass]
            match nameEx.2.get "value" with
            | some v =>
              Except.ok (addDataProperty st "value" exampleClass "xsd:string" ""
                false false (some (jsonDumps v)))
            | none => Except.ok st)
      (Except.ok st)
  | _ => Except.error "AttributeError: examples.items"

/-! ### `_process_responses` (lines 160-177) -/

/-- `_process_responses(operation_class, responses)`. -/
def processResponses (env : Env) (st : ConvState) (operationClass : String)
    (responses : Json) : Except String ConvState :=
  match responses with
  | Json.obj rs =>
    rs.foldl
      (fun acc statusResp =>
        acc.bind fun st =>
          let responseClass := operationClass ++ "_Response_" ++ statusResp.1
          let st := addClass st responseClass
            (statusResp.2.getStrD "description" "") [operationClass]
          match statusResp.2.get "content" with
          | some (Json.obj contents) =>
            contents.foldl
              (fun acc2 ctDef =>
                acc2.bind fun st =>
                  (match ctDef.2.get "schema" with
                   | some schema => processSchemaAttributesTop env st responseClass schema
                   | none => Except.ok st).bind fun st =>
                  match ctDef.2.get "examples" with
                  | some exs => processExamples st responseClass exs
                  | none => Except.ok st)
              (Except.ok st)
          | some _ => Except.error "AttributeError: content.items"
          | none => Except.ok st)
      (Except.ok st)
  | _ => Except.error "AttributeError: responses.items"

/-! ### `_process_request_body` (lines 135-158) -/

/-- `_process_request_body(operation_class, request_body)`. -/
def processRequestBody (env : Env) (st : ConvState) (operationClass : String)
    (requestBody : Json) : Except String ConvState :=
  match requestBody.get "content" with
  | some (Json.obj contents) =>
    contents.foldl
      (fun acc ctDef =>
        acc.bind fun st =>
          let requestClass := operationClass ++ "_Request"
          let st := addClass st requestClass
            (requestBody.getStrD "description" "") [operationClass]
          (match ctDef.2.get "schema" with
           | some schema =>
             match schema.get "$ref" with
             | some (Json.str ref) =>
               (resolveSchemaRef env st ref).bind fun vst =>
                 processSchemaAttributesTop env vst.2 requestClass vst.1
             | some _ => Except.error "TypeError: non-string $ref"
             | none => processSchemaAttributesTop env st requestClass schema
           | none => Except.ok st).bind fun st =>
          match ctDef.2.get "examples" with
          | some exs => processExamples st requestClass exs
          | none => Except.ok st)
      (Except.ok st)
  | some _ => Except.error "AttributeError: content.items"
  | none => Except.ok st

/-! ### `_process_parameters` (lines 88-133) -/

/-- `_process_parameters(operation_class, parameters)`. -/
def processParameters (env : Env) (st : ConvState) (operationClass : String)
    (parameters : List Json) : Except String ConvState :=
  let paramsClass := operationClass ++ "_Parameters"
  let st := addClass st paramsClass "Parameters" [operationClass]
  parameters.foldl
    (fun acc param =>
      acc.bind fun st =>
        match param.get "name" with
        | some (Json.str paramName) =>
          let paramClass := paramsClass ++ "_" ++ sanitizeName paramName
          let st := addClass st paramClass (param.getStrD "description" "")
            [paramsClass]
          let st := addDataProperty st "name" paramClass "xsd:string" ""
            true false (some paramName)
          let st := addDataProperty st "in" paramClass "xsd:string" ""
            true false (some (param.getStrD "in" ""))
          -- `str(param.get('required', False)).lower()`; non-bool values
          -- are not modelled
          let reqStr := match param.get "required" with
            | some (Json.bool b) => if b then "true" else "false"
            | _ => "false"
          let st := addDataProperty st "required" paramClass "xsd:boolean" ""
            false false (some reqStr)
          match param.get "schema" with
          | some schema => processSchemaAttributesTop env st paramClass schema
          | none => Except.ok st
        | _ => Except.error "KeyError: 'name'")
    (Except.ok st)

/-! ### `_process_operation` (lines 65-86) and `_process_paths` (lines 57-63) -/

/-- `_process_operation(path, method, operation, tag)`.  A non-string
`operationId` is not modelled. -/
def processOperation (env : Env) (st : ConvState) (path method : String)
    (operation : Json) (tag : String) : Except String ConvState :=
  let operationId := match operation.get "operationId" with
    | some (Json.str s) => s
    | _ => method ++ "_" ++ sanitizeName path
  let description := operation.getStrD "description" ""
  let operationClass := tag ++ "_" ++ operationId
  let st := addClass st operationClass description [tag]
  -- `if operation.get('parameters'):` — an empty (falsy) list is skipped;
  -- a truthy non-list value is not modelled
  (match operation.get "parameters" with
   | some (Json.arr ps) =>
     if ps.isEmpty then Except.ok st else processParameters env st operationClass ps
   | _ => Except.ok st).bind fun st =>
  (if operation.hasKey "requestBody" then
      processRequestBody env st operationClass
        ((operation.get "requestBody").getD Json.emptyObj)
    else Except.ok st).bind fun st =>
  processResponses env st operationClass
    ((operation.get "responses").getD Json.emptyObj)

/-- `_process_paths`. -/
def processPaths (env : Env) (st : ConvState) : Except String ConvState :=
  match env.swaggerDoc.get "paths" with
  | some (Json.obj paths) =>
    paths.foldl
      (fun acc pathItem =>
        acc.bind fun st =>
          match pathItem.2 with
          | Json.obj ops =>
            ops.foldl
              (fun acc2 methodOp =>
                acc2.bind fun st =>
                  if ["get", "post", "put", "delete", "patch"].contains methodOp.1 then
                    let tags := match methodOp.2.get "tags" with
                      | some (Json.arr ts) => ts
                      | _ => []
                    tags.foldl
                      (fun acc3 tagJ =>
                        acc3.bind fun st =>
                          match tagJ with
                          | Json.str tag =>
                            processOperation env st pathItem.1 methodOp.1 methodOp.2 tag
                          | _ => Except.error "TypeError: non-string tag")
                      (Except.ok st)
                  else Except.ok st)
              (Except.ok st)
          | _ => Except.error "AttributeError: path_item.items")
      (Except.ok st)
  | some _ => Except.error "AttributeError: paths.items"
  | none => Except.ok st

/-! ### `convert_swagger` (lines 456-479) -/

/-- `convert_swagger(swagger_doc)` on a freshly constructed converter:
the joined TTL text plus the final converter state. -/
def convertSwagger (env : Env) : Except String (String × ConvState) :=
  let st := initState
  let st := writeNamespaceDecls env st
  let st := writeOntologyHeader env st
  (writeBaseClasses env st).bind fun st =>
  (processPaths env st).bind fun st =>
  ((match env.swaggerDoc.get "components" with
   | some comps =>
     match comps.get "schemas" with
     | some (Json.obj schemas) =>
       schemas.foldl
         (fun (acc : Except String ConvState) (nameSchema : String × Json) =>
           acc.bind fun st =>
             if st.processedRefs.contains nameSchema.1 then Except.ok st
             else
               let st := { st with processedRefs := st.processedRefs ++ [nameSchema.1] }
               let st := addClass st nameSchema.1
                 (nameSchema.2.getStrD "description" "") []
               processSchemaAttributesTop env st nameSchema.1 nameSchema.2)
         (Except.ok st)
     | some _ => Except.error "AttributeError: schemas.items"
     | none => Except.ok st
   | none => Except.ok st : Except String ConvState)).map fun st =>
  (joinWith "\n" st.ttl, st)

/-! ### `EnhancedSwaggerToRDFConverter.__init__` (src/swaggertordfv2.py
lines 27-66), restricted to the fields `generate_rdf_header` reads -/

/-- The converter fields computed in `__init__` from the parsed document. -/
structure ConvV2 where
  apiTitle : String
  apiDescription : String
  apiVersion : String

/-- `__init__(swagger_data)`. -/
def initConvV2 (swaggerData : Json) : ConvV2 :=
  let info := (swaggerData.get "info").getD Json.emptyObj
  { apiTitle := stripStr (info.getStrD "title" "API")
    apiDescription := stripStr (info.getStrD "description" "")
    apiVersion := stripStr (info.getStrD "version" "1.0") }

/-- `self.base_uri`. -/
def v2BaseUri (c : ConvV2) : String :=
  "https://w3id.org/api/" ++ sanitizeForUri c.apiTitle ++ "/"

/-- `self.ontology_version_uri`. -/
def v2VersionUri (c : ConvV2) : String :=
  v2BaseUri c ++ c.apiVersion ++ "/"

/-! ### `generate_rdf_header` (lines 441-479)

The source computes `current_date = datetime.now().strftime('%Y-%m-%d')`;
the date the process observes is passed here as the explicit argument
`currentDate`.  Everything else is a function of the document. -/

/-- `generate_rdf_header`, with `datetime.now().strftime('%Y-%m-%d')`
passed in as `currentDate`. -/
def generateRdfHeader (c : ConvV2) (swaggerData : Json) (currentDate : String) :
    String :=
  let serverUrl := match swaggerData.get "servers" with
    | some (Json.arr (s0 :: _)) => s0.getStrD "url" "#"
    | _ => "#"
  let base := v2BaseUri c
  joinWith "\n"
    ["<?xml version=\"1.0\"?>",
     "<rdf:RDF xmlns=\"" ++ base ++ "\"",
     "     xml:base=\"" ++ base ++ "\"",
     "     xmlns:dc=\"http://purl.org/dc/elements/1.1/\"",
     "     xmlns:ns=\"http://creativecommons.org/ns#\"",
     "     xmlns:owl=\"http://www.w3.org/2002/07/owl#\"",
     "     xmlns:rdf=\"http://www.w3.org/1999/02/22-rdf-syntax-ns#\"",
     "     xmlns:xml=\"http://www.w3.org/XML/1998/namespace\"",
     "     xmlns:xsd=\"http://www.w3.org/2001/XMLSchema#\"",
     "     xmlns:api=\"" ++ base ++ "\"",
     "     xmlns:rdfs=\"http://www.w3.org/2000/01/rdf-schema#\"",
     "     xmlns:skos=\"http://www.w3.org/2004/02/skos/core#\"",
     "     xmlns:vann=\"http://purl.org/vocab/vann/\"",
     "     xmlns:terms=\"http://purl.org/dc/terms/\"",
     "     xmlns:o2o=\"https://karlhammar.com/owl2oas/o2o.owl#\"",
     "     xmlns:cc=\"http://creativecommons.org/ns#\">",
     "    <owl:Ontology rdf:about=\"" ++ base ++ "\">",
     "        <owl:versionIRI rdf:resource=\"" ++ v2VersionUri c ++ "\"/>",
     "        <dc:creator>Enhanced Swagger to RDF Converter</dc:creator>",
     "        <dc:description xml:lang=\"en\">" ++ sanitizeText c.apiDescription
       ++ "</dc:description>",
     "        <dc:publisher>Generated from Swagger/OpenAPI</dc:publisher>",
     "        <dc:title xml:lang=\"en\">" ++ sanitizeText c.apiTitle
       ++ " API Ontology</dc:title>",
     "        <terms:modified>" ++ currentDate ++ "</terms:modified>",
     "        <vann:preferredNamespacePrefix>api</vann:preferredNamespacePrefix>",
     "        <vann:preferredNamespaceUri>" ++ base
       ++ "</vann:preferredNamespaceUri>",
     "        <rdfs:seeAlso rdf:resource=\"" ++ sanitizeText serverUrl ++ "\"/>",
     "        <owl:versionInfo rdf:datatype=\"http://www.w3.org/2001/XMLSchema#string\">"
       ++ sanitizeText c.apiVersion ++ "</owl:versionInfo>",
     "        <cc:license rdf:resource=\"https://creativecommons.org/licenses/by/4.0/\"/>",
     "    </owl:Ontology>",
     ""]

/-! ### `generate_response_classes` (lines 922-1023): the status-code
taxonomy and the per-response class selection -/

/-- The `resp_types` table, in source order. -/
def respTypes : List (String × String) :=
  [("200", "SuccessResponse"),
   ("201", "CreatedResponse"),
   ("400", "BadRequestResponse"),
   ("401", "UnauthorizedResponse"),
   ("403", "ForbiddenResponse"),
   ("404", "NotFoundResponse"),
   ("500", "ServerErrorResponse")]

/-- The class selection for one response instance (lines 975-980):
`resp_class = resp_types.get(status_code, "Response")`, then a fallback to
`"Response"` if the chosen name is not in `self.classes`. -/
def selectRespClass (classes : List String) (statusCode : String) : String :=
  let rc := (assocFind statusCode respTypes).getD "Response"
  if classes.contains rc then rc else "Response"

/-- `self.classes` as populated by `generate_response_classes` itself before
the per-response loop: the base `Response` class plus every taxonomy class
(lines 941-970); the controller/endpoint names added by earlier phases do
not matter to `selectRespClass`, which only tests these names. -/
def respClassesBuilt : List String :=
  "Response" :: respTypes.map Prod.snd

/-! ### Concrete input documents used by the claim theorems -/

/-- A document whose single schema `Pet` references itself, giving a
self-reference chain longer than any depth bound. -/
def petSelfDoc : Json :=
  Json.obj
    [("openapi", Json.str "3.0.0"),
     ("info", Json.obj [("title", Json.str "Pets")]),
     ("paths", Json.obj []),
     ("components", Json.obj
       [("schemas", Json.obj
         [("Pet", Json.obj
           [("properties", Json.obj
             [("self", Json.obj
               [("$ref", Json.str "#/components/schemas/Pet")])])])])])]

/-- Environment for the self-referential document. -/
def selfEnv : Env := { swaggerDoc := petSelfDoc }

/-- The self-referential document with the maximum depth configured to 2
(the spec's configurable bound; the source's hard-coded value 10 is the
`Env` default and is covered by the general guard theorem — the small bound
keeps the concrete run cheap to evaluate inside the kernel). -/
def selfEnv2 : Env := { swaggerDoc := petSelfDoc, maxDepth := 2 }

/-- Two schemas that each declare a property named `name`. -/
def abDoc : Json :=
  Json.obj
    [("openapi", Json.str "3.0.0"),
     ("info", Json.obj [("title", Json.str "AB")]),
     ("paths", Json.obj []),
     ("components", Json.obj
       [("schemas", Json.obj
         [("A", Json.obj
           [("properties", Json.obj
             [("name", Json.obj [("type", Json.str "string")])])]),
          ("B", Json.obj
           [("properties", Json.obj
             [("name", Json.obj [("type", Json.str "string")])])])])])]

/-- Environment for `abDoc`. -/
def abEnv : Env := { swaggerDoc := abDoc }

/-- A document with one schema whose property references an unreachable
external URL. -/
def fetchFailDoc : Json :=
  Json.obj
    [("openapi", Json.str "3.0.0"),
     ("info", Json.obj [("title", Json.str "Ext")]),
     ("paths", Json.obj []),
     ("components", Json.obj
       [("schemas", Json.obj
         [("W", Json.obj
           [("properties", Json.obj
             [("remote", Json.obj
               [("$ref",
                 Json.str "http://down.example/doc.json#/components/schemas/X")])])])])])]

/-- Environment for `fetchFailDoc`: every fetch raises. -/
def fetchFailEnv : Env :=
  { swaggerDoc := fetchFailDoc
    fetch := fun _ => Except.error "connection refused" }

/-- A document with one schema whose property holds a dangling local
reference (`#/definitions/Missing` — every traversed value is a dict, the
keys are simply absent). -/
def danglingDoc : Json :=
  Json.obj
    [("openapi", Json.str "3.0.0"),
     ("info", Json.obj [("title", Json.str "Dangle")]),
     ("paths", Json.obj []),
     ("components", Json.obj
       [("schemas", Json.obj
         [("D", Json.obj
           [("properties", Json.obj
             [("missing", Json.obj
               [("$ref", Json.str "#/definitions/Missing")])])])])])]

/-- Environment for `danglingDoc`. -/
def danglingEnv : Env := { swaggerDoc := danglingDoc }

/-- A root document in which the pointer path `#/a/b` walks into the string
value at key `a`. -/
def nonDictEnv : Env :=
  { swaggerDoc := Json.obj [("a", Json.str "hello")] }

/-- The nodes of a successful conversion (empty on a raised exception). -/
def convNodes (env : Env) : List Node :=
  match convertSwagger env with
  | Except.ok out => out.2.nodes
  | Except.error _ => []

/-- The warnings of a successful conversion. -/
def convWarnings (env : Env) : List String :=
  match convertSwagger env with
  | Except.ok out => out.2.warnings
  | Except.error _ => []

/-- Whether the conversion completed without a raised exception. -/
def convOk (env : Env) : Bool :=
  match convertSwagger env with
  | Except.ok _ => true
  | Except.error _ => false

/-- `info` block used by the tagged-xml header theorems. -/
def petInfoDoc : Json :=
  Json.obj
    [("openapi", Json.str "3.0.0"),
     ("info", Json.obj
       [("title", Json.str "Pets"),
        ("description", Json.str "Pet store"),
        ("version", Json.str "1.0.0")])]

/-- The v2 converter constructed on `petInfoDoc`. -/
def convPet : ConvV2 := initConvV2 petInfoDoc

/-! ### Small definitions used by the claim statements -/

/-- A property definition `{"type": t, "format": f}` (format omitted for
`none`), as handed to `_get_xsd_type`. -/
def typeFmt (t : String) (f : Option String) : Json :=
  Json.obj ([("type", Json.str t)] ++
    (match f with | some s => [("format", Json.str s)] | none => []))

/-- Python `needle in haystack` on strings. -/
def strContains (needle haystack : String) : Bool :=
  containsSub needle.toList haystack.toList

/-- The formalization of claim C8 for the compact converter, at one
response: some recorded class node is the response class, is subclassed
under the operation class, and is also subclassed under one of the fixed
status-code category classes. -/
def claimC8Compact (nodes : List Node) (oc status : String) : Bool :=
  nodes.any (fun n =>
    match n with
    | Node.classNode i _ supers _ =>
      i == sanitizeName (oc ++ "_Response_" ++ status) &&
        supers.contains (sanitizeName oc) &&
        (respTypes.map Prod.snd).any (fun cat => supers.contains cat)
    | _ => false)

/-- The nodes recorded by `_process_responses` on one `200` response with a
description, under operation class `Pets_getPet`. -/
def respRunNodes : List Node :=
  match processResponses {} initState "Pets_getPet"
      (Json.obj [("200", Json.obj [("description", Json.str "ok")])]) with
  | Except.ok st => st.nodes
  | Except.error _ => []

/-- The `full_path` computed by the relative-file branch of
`_resolve_schema_ref` (lines 288-291). -/
def fileFullPath (cf ref : String) : String :=
  urljoinApprox
    (joinWith "/" (((splitChar '/' cf.toList).dropLast).map String.mk) ++ "/")
    (hashBase ref)

/-- A class description containing a double quote. -/
def c9Desc : String := "he said \"hi\""

/-- `_add_class` called with `c9Desc` as the description. -/
def c9Run : ConvState := addClass initState "Pet" c9Desc []

/-- No two adjacent hyphens (the normal form established by
`re.sub(r'-+', '-', _)`), used to state the sanitizer's idempotence. -/
def noRun : List Char → Bool
  | [] => true
  | [_] => true
  | a :: b :: rest => !(a = '-' && b = '-') && noRun (b :: rest)

/-! ## Theorems -/

/-- C5: "The primitive-type-to-datatype mapping table is identical in both
serializations: for every (primitive type, format) pair, the compact-triple
converter's type mapper and the tagged-xml converter's type mapper yield
the same canonical datatype identifier."  REFUTED: on `(integer, int32)`
the compact converter returns `xsd:int` while the tagged converter returns
`integer` (that is, `xsd:integer`). -/
theorem C5_counterexample :
    ¬ ("xsd:" ++ getXsdType (typeFmt "integer" (some "int32")) =
        mapTypeToXsd "integer" (some "int32")) := by
  decide

/-- C5 (amended): the two mappers agree (up to the `xsd:` prefix the
compact table carries) on the unformatted types string/integer/number/
boolean and on the formats date, date-time, uri, email, uuid and password,
but the tables are not identical: they differ on int32, int64, float,
double, byte, binary and on unformatted object, and the tagged mapper
consults the format before the type. -/
theorem C5_amended_tables_differ :
    (∀ p ∈ [("string", (none : Option String)), ("integer", none),
            ("number", none), ("boolean", none),
            ("string", some "date"), ("string", some "date-time"),
            ("string", some "uri"), ("string", some "email"),
            ("string", some "uuid"), ("string", some "password")],
      "xsd:" ++ getXsdType (typeFmt p.1 p.2) = mapTypeToXsd p.1 p.2) ∧
    (∀ p ∈ [("integer", some "int32"), ("integer", (some "int64" : Option String)),
            ("number", some "float"), ("number", some "double"),
            ("string", some "byte"), ("string", some "binary"),
            ("object", none)],
      "xsd:" ++ getXsdType (typeFmt p.1 p.2) ≠ mapTypeToXsd p.1 p.2) ∧
    getXsdType (typeFmt "string" (some "int32")) = "integer" ∧
    mapTypeToXsd "string" (some "int32") = "xsd:string" := by
  refine ⟨?_, ?_, by decide, by decide⟩ <;> decide

/-- Witness for `C5_amended_tables_differ` (its membership hypotheses
discharged at one concrete pair each). -/
theorem C5_amended_witness :
    "xsd:" ++ getXsdType (typeFmt "string" none) = mapTypeToXsd "string" none ∧
    "xsd:" ++ getXsdType (typeFmt "integer" (some "int32")) ≠
      mapTypeToXsd "integer" (some "int32") :=
  ⟨C5_amended_tables_differ.1 ("string", none) (by decide),
   C5_amended_tables_differ.2.1 ("integer", some "int32") (by decide)⟩

/-- C6: "for any unrecognized (type, format) pair, mapType returns the
generic string datatype."  REFUTED: `("integer", "unlisted-format")` is not
in the table, yet the result is `xsd:integer`, the integer default, not
`xsd:string`. -/
theorem C6_counterexample :
    ¬ (mapTypeToXsd "integer" (some "unlisted-format") = "xsd:string") := by
  decide

/-- C6 (amended): every pair explicitly listed in the table maps to its
documented datatype; a pair whose type is unknown falls back to the generic
string datatype; but a known type with an unrecognized format falls back to
that type's unformatted default datatype, not to the string datatype. -/
theorem C6_type_mapping :
    (typeMapping.all (fun tfs =>
      tfs.2.all (fun fd => mapTypeToXsd tfs.1 fd.1 == fd.2)) = true) ∧
    (∀ t, assocFind t typeMapping = none →
      ∀ f, mapTypeToXsd t f = "xsd:string") ∧
    (∀ t tfs f, assocFind t typeMapping = some tfs →
      assocFindO f tfs = none →
      mapTypeToXsd t f =
        (match assocFindO none tfs with
         | some r => r
         | none => "xsd:string")) := by
  refine ⟨by decide, ?_, ?_⟩
  · intro t ht f
    simp [mapTypeToXsd, ht, assocFindO]
  · intro t tfs f ht hf
    simp [mapTypeToXsd, ht, hf]

/-- Witness for `C6_type_mapping`: an unknown type maps to `xsd:string`,
and a known type with an unrecognized format maps to its default. -/
theorem C6_type_mapping_witness :
    mapTypeToXsd "unknown-type" (some "date") = "xsd:string" ∧
    mapTypeToXsd "integer" (some "unlisted-format") =
      (match assocFindO none [(none, "xsd:integer"), (some "int32", "xsd:int"),
        (some "int64", "xsd:long")] with
       | some r => r
       | none => "xsd:string") :=
  ⟨C6_type_mapping.2.1 "unknown-type" (by decide) (some "date"),
   C6_type_mapping.2.2 "integer"
     [(none, "xsd:integer"), (some "int32", "xsd:int"), (some "int64", "xsd:long")]
     (some "unlisted-format") (by decide) (by decide)⟩

/-- C1: "For every fixed input document and either output format
(compact-triple or tagged-xml), running the conversion twice on the same
input yields byte-identical output text."  REFUTED for the tagged-xml
format: `generate_rdf_header` embeds `datetime.now()` in the
`terms:modified` field, so two runs on the same document that observe
different dates produce different output text. -/
theorem C1_counterexample :
    ¬ (generateRdfHeader convPet petInfoDoc "2025-01-01" =
        generateRdfHeader convPet petInfoDoc "2025-01-02") := by
  intro h
  have h2 := congrArg (fun s => s.toList.count '2') h
  exact absurd h2 (by set_option maxRecDepth 4000 in decide)

/-- C1 (amended): the compact-triple conversion is a pure function of the
document and configuration, so repeated runs yield byte-identical output;
the tagged-xml output embeds the current date in its header, so two runs
are byte-identical exactly when they observe the same current date. -/
theorem C1_determinism :
    (∀ env : Env, convertSwagger env = convertSwagger env) ∧
    (∀ (c : ConvV2) (doc : Json) (d d' : String),
      d = d' → generateRdfHeader c doc d = generateRdfHeader c doc d') :=
  ⟨fun _ => rfl, fun c doc d d' h => by rw [h]⟩

/-- Witness for `C1_determinism` at a concrete document and date. -/
theorem C1_determinism_witness :
    convertSwagger abEnv = convertSwagger abEnv ∧
    generateRdfHeader convPet petInfoDoc "2025-01-01" =
      generateRdfHeader convPet petInfoDoc "2025-01-01" :=
  ⟨C1_determinism.1 abEnv, C1_determinism.2 convPet petInfoDoc _ _ rfl⟩

/-- C3: "no two distinct ClassNode/PropertyNode/IndividualNode in the
produced ontology share an identifier".  REFUTED: on a document with two
schemas `A` and `B` that both declare a property `name`, the builder records
two distinct DatatypeProperty nodes whose identifier is `name` (datatype
property identifiers are derived from the local name alone). -/
theorem C3_counterexample :
    ¬ ((convNodes abEnv).map Node.ident).Nodup := by
  decide

/-- C3 (amended): identifiers are generated deterministically and
sanitized, but only subordinate-class identifiers concatenate the owning
entity with the local name; datatype property identifiers are
`sanitize(local name)` and object property identifiers are
`sanitize("has_" + local name)`, without the owning class, so distinct
property nodes under different domains can share an identifier — as the two
`name` properties of `abDoc` do. -/
theorem C3_identifier_generation :
    (∀ (st : ConvState) (pn dom rt d : String) (r c : Bool) (v : Option String),
      (addDataProperty st pn dom rt d r c v).nodes =
        st.nodes ++ [Node.dataProp (sanitizeName pn) (sanitizeName dom) rt r c v]) ∧
    (∀ (st : ConvState) (pn dom rng d : String) (r c : Bool),
      (addObjectProperty st pn dom rng d r c).nodes =
        st.nodes ++ [Node.objectProp (sanitizeName ("has_" ++ pn))
          (sanitizeName dom) (sanitizeName rng) r c]) ∧
    (∀ (st : ConvState) (cn d : String) (sup : List String),
      (addClass st cn d sup).nodes =
        st.nodes ++ [Node.classNode (sanitizeName cn) cn (sup.map sanitizeName)
          (if d ≠ "" then some d else none)]) ∧
    (convNodes abEnv =
      [Node.classNode "A" "A" [] none,
       Node.dataProp "name" "A" "xsd:string" false false none,
       Node.classNode "B" "B" [] none,
       Node.dataProp "name" "B" "xsd:string" false false none]) :=
  ⟨fun _ _ _ _ _ _ _ _ => rfl, fun _ _ _ _ _ _ _ => rfl,
   fun _ _ _ _ => rfl, by decide⟩

/-- C4: the schema graph builder terminates on every schema value, a call
that has reached the configured maximum depth only records a depth-exceeded
warning and truncates that branch, and on the self-referential `Pet` schema
(whose reference chain exceeds any configured bound; here the bound is
configured to 2, the guard clause covering the hard-coded default 10) the
whole conversion still succeeds, records exactly one depth-exceeded
warning, and still emits the partially built class at the truncation
point. -/
theorem C4_depth_guard :
    (∀ (env : Env) (fuel : Nat) (cn : String) (schema : Json) (depth : Nat)
        (st : ConvState),
      env.maxDepth ≤ depth →
      processSchemaAttributes env fuel cn schema depth st =
        Except.ok (pushWarning st (depthWarning cn))) ∧
    (convOk selfEnv2 = true ∧
      convWarnings selfEnv2 = [depthWarning "Pet_self_self"] ∧
      (convNodes selfEnv2).contains
        (Node.classNode "Pet_self_self" "Pet_self_self" ["Pet_self"] none)
        = true) := by
  constructor
  · intro env fuel cn schema depth st h
    rw [processSchemaAttributes.eq_def]
    simp only [if_pos h]
  · exact ⟨by decide, by decide, by decide⟩

/-- Witness for `C4_depth_guard`: the guard at `depth = maxDepth = 10`. -/
theorem C4_depth_guard_witness :
    processSchemaAttributes selfEnv 3 "Cls" Json.emptyObj 10 initState =
      Except.ok (pushWarning initState (depthWarning "Cls")) :=
  C4_depth_guard.1 selfEnv 3 "Cls" Json.emptyObj 10 initState (by decide)

/-- C10: "for every local reference whose pointer path does not exist, the
resolver returns the empty schema value without raising an exception and
without recording any warning".  REFUTED: when the pointer walk reaches a
non-dict value (here `#/a/b` walking into the string at key `a`), `.get`
raises `AttributeError` and the conversion aborts. -/
theorem C10_counterexample :
    resolveSchemaRef nonDictEnv initState "#/a/b" =
      Except.error "AttributeError: 'get' on non-dict value" := by
  rfl

/-- C10 (amended): a local reference resolves by the silent pointer walk —
missing keys among dict values yield the empty schema with no warning and
no exception, and the referencing branch is still emitted as a class with
no expanded properties — but a walk that reaches a non-dict value raises an
`AttributeError` that aborts the conversion. -/
theorem C10_local_refs :
    (∀ (env : Env) (st : ConvState) (ref : String),
      ref.toList.head? = some '#' →
      resolveSchemaRef env st ref =
        (walkRefPath env.swaggerDoc (String.mk (ref.toList.drop 1))).map
          (fun v => (v, st))) ∧
    (convOk danglingEnv = true ∧
      convWarnings danglingEnv = [] ∧
      convNodes danglingEnv =
        [Node.classNode "D" "D" [] none,
         Node.classNode "D_missing" "D_missing" ["D"] none,
         Node.objectProp "has_missing" "D" "D_missing" false false]) := by
  constructor
  · intro env st ref h
    have hne : ref ≠ "" := by
      intro e
      rw [e] at h
      exact absurd h (by decide)
    rw [resolveSchemaRef, if_neg hne, if_neg (fun hc => hc h)]
  · exact ⟨by decide, by decide, by decide⟩

/-- Witness for `C10_local_refs`: the dangling local reference of
`danglingDoc` resolves through the silent walk. -/
theorem C10_local_refs_witness :
    resolveSchemaRef danglingEnv initState "#/definitions/Missing" =
      (walkRefPath danglingEnv.swaggerDoc
        (String.mk ("#/definitions/Missing".toList.drop 1))).map
        (fun v => (v, initState)) :=
  C10_local_refs.1 danglingEnv initState "#/definitions/Missing" (by decide)

/-- C7: a reference whose resolution hits an I/O or parse failure (an
unreachable URL, or an unreadable/unparseable external file) resolves to
the empty schema value with one recorded non-fatal warning, and the wider
build continues, treating the reference as an empty object: on the
concrete document whose schema property points at an unreachable URL the
conversion still succeeds, records exactly the fetch warning, and emits
the referencing class with no expanded properties. -/
theorem C7_resolver_soft_failure :
    (∀ (env : Env) (st : ConvState) (ref e : String),
      containsSub "://".toList ref.toList = true →
      ref.toList.head? ≠ some '#' →
      assocFind (hashBase ref) st.externalDocs = none →
      env.fetch (hashBase ref) = Except.error e →
      resolveSchemaRef env st ref =
        Except.ok (Json.emptyObj, pushWarning st
          ("Error fetching external reference " ++ hashBase ref ++ ": " ++ e))) ∧
    (∀ (env : Env) (st : ConvState) (ref e cf : String),
      ref ≠ "" →
      containsSub "://".toList ref.toList = false →
      ref.toList.head? ≠ some '#' →
      env.currentFile = some cf →
      assocFind (fileFullPath cf ref) st.externalDocs = none →
      env.fileRead (fileFullPath cf ref) = Except.error e →
      resolveSchemaRef env st ref =
        Except.ok (Json.emptyObj, pushWarning st
          ("Error reading external file " ++ fileFullPath cf ref ++ ": " ++ e))) ∧
    (convOk fetchFailEnv = true ∧
      convWarnings fetchFailEnv =
        ["Error fetching external reference http://down.example/doc.json: connection refused"] ∧
      convNodes fetchFailEnv =
        [Node.classNode "W" "W" [] none,
         Node.classNode "W_remote" "W_remote" ["W"] none,
         Node.objectProp "has_remote" "W" "W_remote" false false]) := by
  refine ⟨?_, ?_, by decide, by decide, by decide⟩
  · intro env st ref e hc hh hcache hfetch
    have hne : ref ≠ "" := by
      intro heq
      rw [heq] at hc
      exact absurd hc (by decide)
    rw [resolveSchemaRef, if_neg hne, if_pos hh]
    simp only [hc, if_true, hcache, hfetch]
  · intro env st ref e cf hne hc hh hcf hcache hread
    rw [resolveSchemaRef, if_neg hne, if_pos hh]
    simp only [hc, if_false, Bool.false_eq_true, ite_false, hcf]
    simp only [fileFullPath] at hcache hread
    simp only [hcache, hread]
    rfl

/-- Witness for `C7_resolver_soft_failure`: the unreachable-URL reference
of `fetchFailDoc`, and an unreadable relative file reference. -/
theorem C7_resolver_soft_failure_witness :
    resolveSchemaRef fetchFailEnv initState
        "http://down.example/doc.json#/components/schemas/X" =
      Except.ok (Json.emptyObj, pushWarning initState
        ("Error fetching external reference " ++
          hashBase "http://down.example/doc.json#/components/schemas/X" ++
          ": " ++ "connection refused")) ∧
    resolveSchemaRef { swaggerDoc := Json.emptyObj, currentFile := some "specs/main.json" }
        initState "other.json#/X" =
      Except.ok (Json.emptyObj, pushWarning initState
        ("Error reading external file " ++
          fileFullPath "specs/main.json" "other.json#/X" ++ ": " ++ "unreadable")) :=
  ⟨C7_resolver_soft_failure.1 fetchFailEnv initState
      "http://down.example/doc.json#/components/schemas/X" "connection refused"
      (by decide) (by decide) (by rfl) (by rfl),
   C7_resolver_soft_failure.2.1
      { swaggerDoc := Json.emptyObj, currentFile := some "specs/main.json" }
      initState "other.json#/X" "unreadable" "specs/main.json"
      (by decide) (by decide) (by decide) (by rfl) (by rfl) (by rfl)⟩

/-- C8: "the created response class is subclassed under both its operation
class and the corresponding fixed status-code category class".  REFUTED
for the compact converter: `_process_responses` subclasses the response
class only under its operation class — on a `200` response no recorded
class node carries any status-code category superclass. -/
theorem C8_counterexample :
    ¬ (claimC8Compact respRunNodes "Pets_getPet" "200" = true) := by
  decide

/-- C8 (amended): in the compact converter the response class
`<op>_Response_<status>` is subclassed only under its operation class (no
status-code taxonomy exists there); in the tagged-xml converter responses
are emitted as named individuals whose type is the matching status-code
category class when the status is one of 200/201/400/401/403/404/500, and
the generic `Response` class otherwise. -/
theorem C8_response_classes :
    (∀ (env : Env) (st : ConvState) (oc status desc : String),
      processResponses env st oc
        (Json.obj [(status, Json.obj [("description", Json.str desc)])]) =
        Except.ok (addClass st (oc ++ "_Response_" ++ status) desc [oc])) ∧
    (respRunNodes =
      [Node.classNode "Pets_getPet_Response_200" "Pets_getPet_Response_200"
        ["Pets_getPet"] (some "ok")]) ∧
    ((respTypes.all (fun tc => selectRespClass respClassesBuilt tc.1 == tc.2))
      = true) ∧
    (∀ status, assocFind status respTypes = none →
      selectRespClass respClassesBuilt status = "Response") := by
  refine ⟨fun _ _ _ _ _ => rfl, by decide, by decide, ?_⟩
  intro status h
  simp [selectRespClass, h, respClassesBuilt]

/-- Witness for `C8_response_classes`: an unknown status code selects the
generic `Response` class. -/
theorem C8_response_classes_witness :
    selectRespClass respClassesBuilt "302" = "Response" :=
  C8_response_classes.2.2.2 "302" (by decide)

/-- Characters of a single-character replace come from the replacement text
or are non-target characters of the input. -/
theorem mem_replaceSeq {c target : Char} {repl l : List Char}
    (h : c ∈ replaceSeq target repl l) : c ∈ repl ∨ (c ∈ l ∧ c ≠ target) := by
  simp only [replaceSeq, List.mem_flatMap] at h
  obtain ⟨x, hx, hc⟩ := h
  by_cases hxt : x = target
  · rw [if_pos hxt] at hc
    exact Or.inl hc
  · rw [if_neg hxt] at hc
    simp only [List.mem_singleton] at hc
    subst hc
    exact Or.inr ⟨hx, hxt⟩

/-- C9: "Every literal text emitted by either renderer has its reserved
characters escaped ... for all literal fields including class labels and
comments."  REFUTED: `_add_class` embeds the class description (and label)
raw — on a description containing a double quote, the emitted stanza
contains the raw text and nowhere its `_escape_string` form. -/
theorem C9_counterexample :
    c9Run.ttl.any (fun l => strContains c9Desc l) = true ∧
    c9Run.ttl.any (fun l => strContains (escapeString c9Desc) l) = false := by
  refine ⟨by decide, by decide⟩

/-- C9 (amended): `_escape_string` does remove literal newlines, and the
tagged renderer's `sanitize_text` (html.escape) leaves no raw `<`, `>`,
`"` or `'` in its output; the compact renderer applies `_escape_string` to
the ontology-header fields and to property comments (and values), but
`_add_class` embeds class labels and class comments without any
escaping. -/
theorem C9_literal_escaping :
    (∀ s : String, '\n' ∉ (escapeString s).toList) ∧
    (∀ s : String, '<' ∉ (sanitizeText s).toList ∧ '>' ∉ (sanitizeText s).toList ∧
      '"' ∉ (sanitizeText s).toList ∧ '\'' ∉ (sanitizeText s).toList) ∧
    (∀ (st : ConvState) (pn dom rt d : String), d ≠ "" →
      (addDataProperty st pn dom rt d false false none).ttl =
        st.ttl ++
          ["api:" ++ sanitizeName pn ++ " a owl:DatatypeProperty ;",
           "    rdfs:domain api:" ++ sanitizeName dom ++ " ;",
           "    rdfs:range " ++ rt ++ " ;",
           "    rdfs:comment \"" ++ escapeString d ++ "\"^^xsd:string" ++ " .",
           ""]) ∧
    (∀ (st : ConvState) (cn d : String), d ≠ "" →
      (addClass st cn d []).ttl =
        st.ttl ++
          ["api:" ++ sanitizeName cn ++ " a owl:Class ;",
           "    rdfs:label \"" ++ cn ++ "\"@en ;",
           rstripStr [' ', ';'] ("    rdfs:comment \"\"\"" ++ d ++ "\"\"\"@en ;")
             ++ " .",
           ""]) := by
  refine ⟨?_, ?_, ?_, ?_⟩
  · intro s h
    rcases mem_replaceSeq h with h | ⟨h, hne⟩
    · exact absurd h (by decide)
    · exact hne rfl
  · intro s
    refine ⟨?_, ?_, ?_, ?_⟩ <;> intro h
    · rcases mem_replaceSeq h with h | ⟨h, _⟩
      · exact absurd h (by decide)
      rcases mem_replaceSeq h with h | ⟨h, _⟩
      · exact absurd h (by decide)
      rcases mem_replaceSeq h with h | ⟨h, _⟩
      · exact absurd h (by decide)
      rcases mem_replaceSeq h with h | ⟨h, hne⟩
      · exact absurd h (by decide)
      · exact hne rfl
    · rcases mem_replaceSeq h with h | ⟨h, _⟩
      · exact absurd h (by decide)
      rcases mem_replaceSeq h with h | ⟨h, _⟩
      · exact absurd h (by decide)
      rcases mem_replaceSeq h with h | ⟨h, hne⟩
      · exact absurd h (by decide)
      · exact hne rfl
    · rcases mem_replaceSeq h with h | ⟨h, _⟩
      · exact absurd h (by decide)
      rcases mem_replaceSeq h with h | ⟨h, hne⟩
      · exact absurd h (by decide)
      · exact hne rfl
    · rcases mem_replaceSeq h with h | ⟨h, hne⟩
      · exact absurd h (by decide)
      · exact hne rfl
  · intro st pn dom rt d hd
    simp [addDataProperty, updateLast, hd]
  · intro st cn d hd
    simp [addClass, updateLast, hd]

/-- Witness for `C9_literal_escaping`: the emitted lines at a concrete
non-empty description. -/
theorem C9_literal_escaping_witness :
    (addDataProperty initState "note" "Pet" "xsd:string" "a \"q\"" false false
        none).ttl =
      initState.ttl ++
        ["api:" ++ sanitizeName "note" ++ " a owl:DatatypeProperty ;",
         "    rdfs:domain api:" ++ sanitizeName "Pet" ++ " ;",
         "    rdfs:range " ++ "xsd:string" ++ " ;",
         "    rdfs:comment \"" ++ escapeString "a \"q\"" ++ "\"^^xsd:string" ++ " .",
         ""] ∧
    (addClass initState "Pet" "a \"q\"" []).ttl =
      initState.ttl ++
        ["api:" ++ sanitizeName "Pet" ++ " a owl:Class ;",
         "    rdfs:label \"" ++ "Pet" ++ "\"@en ;",
         rstripStr [' ', ';'] ("    rdfs:comment \"\"\"" ++ "a \"q\"" ++ "\"\"\"@en ;")
           ++ " .",
         ""] :=
  ⟨C9_literal_escaping.2.2.1 initState "note" "Pet" "xsd:string" "a \"q\"" (by decide),
   C9_literal_escaping.2.2.2 initState "Pet" "a \"q\"" (by decide)⟩

/-! ### Facts about `sanitize_for_uri`, building to its idempotence -/

/-- `Char.ofNat` round-trips on codepoints below the surrogate range. -/
theorem charOfNat_toNat (n : Nat) (h : n < 55296) : (Char.ofNat n).toNat = n := by
  unfold Char.ofNat
  rw [dif_pos (Or.inl h)]
  rfl

/-- `asciiLower` never produces an ASCII uppercase letter. -/
theorem asciiLower_not_upper (c : Char) :
    ¬(65 ≤ (asciiLower c).toNat ∧ (asciiLower c).toNat ≤ 90) := by
  unfold asciiLower
  split
  · next h =>
    simp only [Bool.and_eq_true, decide_eq_true_eq] at h
    rw [charOfNat_toNat (c.toNat + 32) (by omega)]
    omega
  · next h =>
    simp only [Bool.and_eq_true, decide_eq_true_eq] at h
    omega

/-- `asciiLower` fixes every character that is not ASCII uppercase. -/
theorem asciiLower_fix (c : Char) (h : ¬(65 ≤ c.toNat ∧ c.toNat ≤ 90)) :
    asciiLower c = c := by
  unfold asciiLower
  rw [if_neg]
  simp only [Bool.and_eq_true, decide_eq_true_eq]
  omega

/-- Characters surviving the lowercase-then-filter stage are kept characters
fixed by lowering. -/
theorem mem_lowerFilter {c : Char} {l : List Char}
    (h : c ∈ (l.map asciiLower).filter keepChar) :
    keepChar c = true ∧ asciiLower c = c := by
  rw [List.mem_filter] at h
  obtain ⟨hm, hk⟩ := h
  rw [List.mem_map] at hm
  obtain ⟨x, _, rfl⟩ := hm
  exact ⟨hk, asciiLower_fix _ (asciiLower_not_upper x)⟩

/-- The lowercase-then-filter stage is the identity on such lists. -/
theorem lowerFilter_fixed {l : List Char}
    (h : ∀ c ∈ l, keepChar c = true ∧ asciiLower c = c) :
    (l.map asciiLower).filter keepChar = l := by
  rw [List.map_congr_left (fun c hc => (h c hc).2), List.map_id']
  exact List.filter_eq_self.mpr (fun c hc => (h c hc).1)

/-- `collapseRuns` only keeps characters of its input. -/
theorem collapseRuns_subset : ∀ (l : List Char), ∀ c ∈ collapseRuns l, c ∈ l := by
  intro l
  induction l with
  | nil => simp [collapseRuns]
  | cons a t ih =>
    cases t with
    | nil => simp [collapseRuns]
    | cons b r =>
      intro c hc
      rw [collapseRuns] at hc
      by_cases hab : (a = '-' && b = '-') = true
      · rw [if_pos hab] at hc
        exact List.mem_cons_of_mem a (ih c hc)
      · rw [if_neg hab] at hc
        rcases List.mem_cons.mp hc with h | h
        · exact h ▸ List.mem_cons_self a _
        · exact List.mem_cons_of_mem a (ih c h)

/-- `collapseRuns` preserves the head of a non-empty list. -/
theorem head_collapseRuns : ∀ (x : Char) (xs : List Char),
    (collapseRuns (x :: xs)).head? = some x := by
  intro x xs
  induction xs generalizing x with
  | nil => rfl
  | cons y r ih =>
    rw [collapseRuns]
    by_cases h : (x = '-' && y = '-') = true
    · rw [if_pos h]
      simp only [Bool.and_eq_true, decide_eq_true_eq] at h
      rw [h.1, ← h.2]
      exact ih y
    · rw [if_neg h]
      rfl

/-- The output of `collapseRuns` has no adjacent hyphens. -/
theorem noRun_collapseRuns : ∀ l : List Char, noRun (collapseRuns l) = true := by
  intro l
  induction l with
  | nil => rfl
  | cons a t ih =>
    cases t with
    | nil => rfl
    | cons b r =>
      rw [collapseRuns]
      by_cases h : (a = '-' && b = '-') = true
      · rw [if_pos h]
        exact ih
      · rw [if_neg h]
        obtain ⟨t', ht'⟩ : ∃ t', collapseRuns (b :: r) = b :: t' := by
          have hh := head_collapseRuns b r
          cases hcl : collapseRuns (b :: r) with
          | nil => rw [hcl] at hh; exact absurd hh (by simp)
          | cons z t' =>
            rw [hcl] at hh
            simp only [List.head?_cons, Option.some.injEq] at hh
            exact ⟨t', by rw [hh]⟩
        rw [ht']
        rw [ht'] at ih
        rw [noRun]
        simp only [h, Bool.not_false, Bool.true_and]
        exact ih

/-- `collapseRuns` is the identity on run-free lists. -/
theorem collapseRuns_fixed : ∀ l : List Char, noRun l = true → collapseRuns l = l := by
  intro l
  induction l with
  | nil => intro _; rfl
  | cons a t ih =>
    cases t with
    | nil => intro _; rfl
    | cons b r =>
      intro h
      rw [noRun] at h
      simp only [Bool.and_eq_true, Bool.not_eq_eq_eq_not, Bool.not_true] at h
      rw [collapseRuns, if_neg (by simp [h.1]), ih h.2]

/-- `noRun` is the `Chain'` of "not both hyphens". -/
theorem noRun_iff_chain {l : List Char} :
    noRun l = true ↔ l.Chain' (fun a b => ¬(a = '-' ∧ b = '-')) := by
  induction l with
  | nil => simp [noRun]
  | cons a t ih =>
    cases t with
    | nil => simp [noRun]
    | cons b r =>
      rw [noRun, List.chain'_cons, ← ih]
      simp
      intro _
      tauto

/-- `stripHyphens` is a left-then-right `dropWhile`. -/
theorem stripHyphens_eq_rdrop (l : List Char) :
    stripHyphens l =
      List.rdropWhile (fun c => c = '-') (l.dropWhile (fun c => c = '-')) := rfl

/-- `stripHyphens` only keeps characters of its input. -/
theorem stripHyphens_subset : ∀ (l : List Char), ∀ c ∈ stripHyphens l, c ∈ l := by
  intro l c hc
  rw [stripHyphens_eq_rdrop] at hc
  have hp := List.rdropWhile_prefix (fun c => c = '-') (l.dropWhile (fun c => c = '-'))
  exact (List.dropWhile_suffix _).subset (hp.subset hc)

/-- `stripHyphens` preserves run-freeness (it keeps a contiguous block). -/
theorem noRun_stripHyphens {l : List Char} (h : noRun l = true) :
    noRun (stripHyphens l) = true := by
  rw [noRun_iff_chain] at h ⊢
  rw [stripHyphens_eq_rdrop]
  have hp := List.rdropWhile_prefix (fun c => c = '-') (l.dropWhile (fun c => c = '-'))
  exact List.Chain'.prefix (h.suffix (List.dropWhile_suffix _)) hp

/-- `stripHyphens` is idempotent. -/
theorem stripHyphens_idem (l : List Char) :
    stripHyphens (stripHyphens l) = stripHyphens l := by
  rw [stripHyphens_eq_rdrop, stripHyphens_eq_rdrop]
  have h1 : List.dropWhile (fun c => c = '-')
      (List.rdropWhile (fun c => c = '-') (l.dropWhile (fun c => c = '-'))) =
      List.rdropWhile (fun c => c = '-') (l.dropWhile (fun c => c = '-')) := by
    rw [List.dropWhile_eq_self_iff]
    intro hl
    have hpre := List.rdropWhile_prefix (fun c => c = '-')
      (l.dropWhile (fun c => c = '-'))
    have hlen : 0 < (l.dropWhile (fun c => c = '-')).length :=
      lt_of_lt_of_le hl hpre.length_le
    have hget := hpre.getElem (n := 0) hl
    rw [List.get_eq_getElem, hget]
    have := List.dropWhile_get_zero_not (fun c => c = '-') l hlen
    rwa [List.get_eq_getElem] at this
  rw [h1, List.rdropWhile_idempotent]

/-- A single-character replace is the identity when the target is absent. -/
theorem replaceSeq_noop {target : Char} {repl l : List Char}
    (h : ∀ c ∈ l, c ≠ target) : replaceSeq target repl l = l := by
  unfold replaceSeq
  induction l with
  | nil => rfl
  | cons a t ih =>
    rw [List.flatMap_cons, if_neg (h a (List.mem_cons_self a t))]
    rw [ih (fun c hc => h c (List.mem_cons_of_mem a hc))]
    rfl

/-- Every character of the pipeline output is kept and lowercase-stable. -/
theorem sfuList_good (l : List Char) :
    ∀ c ∈ sanitizeForUriList l, keepChar c = true ∧ asciiLower c = c := by
  intro c hc
  unfold sanitizeForUriList at hc
  exact mem_lowerFilter (collapseRuns_subset _ _ (stripHyphens_subset _ _ hc))

/-- The pipeline output has no adjacent hyphens. -/
theorem sfuList_noRun (l : List Char) : noRun (sanitizeForUriList l) = true := by
  unfold sanitizeForUriList
  exact noRun_stripHyphens (noRun_collapseRuns _)

/-- The character pipeline of `sanitize_for_uri` is idempotent. -/
theorem sfuList_idem (l : List Char) :
    sanitizeForUriList (sanitizeForUriList l) = sanitizeForUriList l := by
  have hg := sfuList_good l
  have hsp : replaceSeq ' ' ['-'] (sanitizeForUriList l) = sanitizeForUriList l := by
    refine replaceSeq_noop (fun c hc heq => ?_)
    have := (hg c hc).1
    rw [heq] at this
    exact absurd this (by decide)
  have hsl : replaceSeq '/' ['-'] (sanitizeForUriList l) = sanitizeForUriList l := by
    refine replaceSeq_noop (fun c hc heq => ?_)
    have := (hg c hc).1
    rw [heq] at this
    exact absurd this (by decide)
  have hst : stripHyphens (sanitizeForUriList l) = sanitizeForUriList l := by
    rw [sanitizeForUriList]
    exact stripHyphens_idem _
  conv_lhs => rw [sanitizeForUriList]
  rw [hsp, hsl, lowerFilter_fixed hg, collapseRuns_fixed _ (sfuList_noRun l), hst]

/-- `sanitize_for_uri` is non-empty and idempotent on every string. -/
theorem sanitizeForUri_spec (s : String) :
    sanitizeForUri s ≠ "" ∧
      sanitizeForUri (sanitizeForUri s) = sanitizeForUri s := by
  by_cases h0 : s = ""
  · subst h0
    exact ⟨by decide, by decide⟩
  · cases hX : sanitizeForUriList s.toList with
    | nil =>
      have hX' : sanitizeForUriList s.data = [] := hX
      have h1 : sanitizeForUri s = "unnamed" := by
        simp [sanitizeForUri, h0, hX']
      rw [h1]
      exact ⟨by decide, by decide⟩
    | cons c t =>
      have hX' : sanitizeForUriList s.data = c :: t := hX
      have h1 : sanitizeForUri s = String.mk (c :: t) := by
        simp [sanitizeForUri, h0, hX']
      have hne : String.mk (c :: t) ≠ "" := by
        intro h
        exact absurd (congrArg String.data h) (by simp)
      have htl : (String.mk (c :: t)).toList = c :: t := rfl
      have h2 : sanitizeForUriList (c :: t) = c :: t := by
        have := sfuList_idem s.toList
        rw [hX] at this
        exact this
      constructor
      · rw [h1]
        exact hne
      · rw [h1]
        simp [sanitizeForUri, hne, htl, h2]

/-- C2: "the name sanitizer ... for every input string s, including the
empty string and null, sanitize(s) is a non-empty identifier ... and it is
idempotent."  REFUTED for the compact converter's `_sanitize_name`: it
returns the empty string on empty input, and `quote` re-encodes the percent
sign, so it is not idempotent either. -/
theorem C2_counterexample :
    ¬ (sanitizeNameOpt (some "") ≠ "" ∧
        sanitizeName (sanitizeName "%") = sanitizeName "%") := by
  decide

/-- C2 (amended): the tagged converter's `sanitize_for_uri` satisfies the
claim — it is pure and total, maps empty input to the fixed placeholder
`unnamed`, always yields a non-empty identifier, and is idempotent; the
compact converter's `_sanitize_name` is pure and total but returns the
empty string for null and for empty input, and is not idempotent: a string
containing `%` is percent-encoded again on the second pass. -/
theorem C2_sanitizers :
    (∀ s : String, sanitizeForUri s ≠ "" ∧
      sanitizeForUri (sanitizeForUri s) = sanitizeForUri s) ∧
    sanitizeForUri "" = "unnamed" ∧
    sanitizeNameOpt none = "" ∧
    sanitizeNameOpt (some "") = "" ∧
    sanitizeName "%" = "%25" ∧
    sanitizeName (sanitizeName "%") = "%2525" :=
  ⟨sanitizeForUri_spec, by decide, by decide, by decide, by decide, by decide⟩
